import Mathlib

/-!
Verification development for the pysmi MIB code generators: a shallow
embedding of `pysmi/codegen/symtable.py` (symbol table builder, STB) and
`pysmi/codegen/jsondoc.py` (JSON document generator, DG).

Python dictionaries are modelled as insertion-ordered association lists
(`odInsert` updates in place, keeping the original key position, exactly as
CPython dicts do).  Python exceptions are modelled with `Except Err`;
unbounded recursion in the source (`genNumericOid`, `getBaseType`, which have
no cycle detection) is modelled with an explicit fuel parameter whose
exhaustion is reported as `Err.outOfFuel` — the only deviation from the
source, which would recurse without bound on such inputs.
-/

/-- Errors surfaced by the embedded code.  `semantic` models
`PySmiSemanticError`, `codegen` models `PySmiCodegenError`, `keyErr` and
`pyError` model host-level Python exceptions (KeyError, TypeError,
ValueError) raised by the source, and `outOfFuel` marks exhaustion of the
fuel bound standing in for unbounded recursion. -/
inductive Err where
  | semantic (msg : String)
  | codegen (msg : String)
  | keyErr (msg : String)
  | pyError (msg : String)
  | outOfFuel
deriving Repr, DecidableEq

/-- Subtype constraint slot of a syntax pair: in the symbol table this is
either a (possibly empty) string or a list of name/value pairs. -/
inductive SubC where
  | strv (s : String)
  | lst (xs : List (String × Int))
deriving Repr, DecidableEq

def SubC.isList : SubC → Bool
  | SubC.lst _ => true
  | SubC.strv _ => false

/-- A type reference: (type name, defining module). -/
abbrev TypeRef := String × String

/-- A syntax reference: ((type name, module), subtype constraint). -/
abbrev SynPair := TypeRef × SubC

/-- One element of an OID reference: a plain number or a (name, module)
symbolic pointer. -/
inductive OidEl where
  | num (n : Nat)
  | ref (name : String) (mod : String)
deriving Repr, DecidableEq

/-- Raw OID element as found in the AST, before `genOid` processing. -/
inductive RawOidEl where
  | name (s : String)
  | num (n : Nat)
  | pairEl (s : String) (n : Nat)
deriving Repr, DecidableEq

/-- Raw DEFVAL payload: a number, a string (hex / binary / quoted literal or
a bare identifier), or a list of bit names. -/
inductive PyDefVal where
  | intv (n : Int)
  | strv (s : String)
  | lstv (bits : List String)
deriving Repr, DecidableEq

/-- A symbol table entry as built by the STB (`symProps` dictionaries). -/
structure STEntry where
  kindv : String
  oid : Option (List OidEl) := none
  syn : Option SynPair := none
  origName : String := ""
  defval : Option PyDefVal := none
deriving Repr, DecidableEq

/-- Per-module symbol table: module name to (symbol name to entry). -/
abbrev SymTab := List (String × List (String × STEntry))

/-- Association list lookup (first binding wins), the model of Python dict
indexing. -/
def alookup (l : List (String × α)) (k : String) : Option α :=
  match l with
  | [] => none
  | (k', v) :: rest => if k' = k then some v else alookup rest k

/-- Ordered-dict insertion: updating an existing key keeps its position,
new keys are appended, as in CPython dicts. -/
def odInsert (l : List (String × α)) (k : String) (v : α) : List (String × α) :=
  match l with
  | [] => [(k, v)]
  | (k', v') :: rest => if k' = k then (k', v) :: rest else (k', v') :: odInsert rest k v

/-- Python set add, modelled with insertion order kept. -/
def pySetAdd (l : List String) (x : String) : List String :=
  if x ∈ l then l else l ++ [x]

/-- Python `dict(pairs)`: later pairs overwrite earlier values in place. -/
def pyDict (xs : List (String × Int)) : List (String × Int) :=
  xs.foldl (fun acc p => odInsert acc p.1 p.2) []

def squote : Char := Char.ofNat 39

def dquote : Char := Char.ofNat 34

/-- Python slice `s[dropL : len - dropR]` on small ASCII strings. -/
def pySlice (s : String) (dropL dropR : Nat) : String :=
  let cs := s.toList.drop dropL
  String.mk (cs.take (cs.length - dropR))

/-- `isBinary` from the source: first char is a single quote and the last two
chars are quote+b (either case).  The source would raise IndexError on an
empty string; the model returns false there. -/
def isBinaryS (s : String) : Bool :=
  match s.toList with
  | [] => false
  | c :: cs =>
    c = squote && (match (c :: cs).reverse with
      | b :: q :: _ => (b = 'b' || b = 'B') && q = squote
      | _ => false)

/-- `isHex` from the source, same shape as `isBinaryS`. -/
def isHexS (s : String) : Bool :=
  match s.toList with
  | [] => false
  | c :: cs =>
    c = squote && (match (c :: cs).reverse with
      | b :: q :: _ => (b = 'h' || b = 'H') && q = squote
      | _ => false)

/-- The source's quoted-string test `defval[0] == defval[-1] == a double
quote` (false on the empty string, where the source would raise). -/
def isQuotedS (s : String) : Bool :=
  match s.toList, s.toList.getLast? with
  | c :: _, some d => c = d && c = dquote
  | _, _ => false

def digitVal (c : Char) : Option Nat :=
  if c.isDigit then some (c.toNat - 48)
  else if 'a' ≤ c ∧ c ≤ 'f' then some (c.toNat - 87)
  else if 'A' ≤ c ∧ c ≤ 'F' then some (c.toNat - 55)
  else none

/-- Python `int(s, base)` for base 2 and 16; `none` models ValueError. -/
def parseRadix (base : Nat) (s : String) : Option Nat :=
  if s = "" then none
  else s.toList.foldl (fun acc c =>
    match acc, digitVal c with
    | some a, some d => if d < base then some (a * base + d) else none
    | _, _ => none) (some 0)

/-- Python `hex(n)[2:]`: lowercase hex digits without prefix. -/
def toHexStr (n : Nat) : String :=
  String.mk (Nat.toDigits 16 n)

/-- Python `str` of a tuple of ints, used by the DG for oid defaults. -/
def pyTupleStr (l : List Nat) : String :=
  match l with
  | [x] => "(" ++ toString x ++ ",)"
  | _ => "(" ++ String.intercalate ", " (l.map toString) ++ ")"

/-- Single-character replacement, the model of `str.replace('-', '_')`. -/
def replaceChar (c d : Char) (s : String) : String :=
  String.mk (s.toList.map (fun x => if x = c then d else x))

/-- The Python 3 keyword list consulted by the STB's `transOpers`. -/
def pyKeywords : List String :=
  ["False", "None", "True", "and", "as", "assert", "async", "await",
   "break", "class", "continue", "def", "del", "elif", "else", "except",
   "finally", "for", "from", "global", "if", "import", "in", "is",
   "lambda", "nonlocal", "not", "or", "pass", "raise", "return", "try",
   "while", "with", "yield"]

/-- STB `transOpers`: keyword-mangling plus hyphen to underscore. -/
def transOpers (s : String) : String :=
  replaceChar '-' '_' (if s ∈ pyKeywords then "pysmi_" ++ s else s)

/-- DG `transOpers`: hyphen to underscore only (no keyword mangling). -/
def transOpersD (s : String) : String :=
  replaceChar '-' '_' s

def baseTypes : List String :=
  ["Integer", "Integer32", "Bits", "ObjectIdentifier", "OctetString"]

def smiv1IdxTypes : List String :=
  ["INTEGER", "OCTET STRING", "IPADDRESS", "NETWORKADDRESS"]

/-- The STB's `typeClasses` rewrite table. -/
def stbTypeClasses : List (String × String) :=
  [("COUNTER32", "Counter32"), ("COUNTER64", "Counter64"),
   ("GAUGE32", "Gauge32"), ("INTEGER", "Integer32"),
   ("INTEGER32", "Integer32"), ("IPADDRESS", "IpAddress"),
   ("NETWORKADDRESS", "IpAddress"), ("OBJECT IDENTIFIER", "ObjectIdentifier"),
   ("OCTET STRING", "OctetString"), ("OPAQUE", "Opaque"),
   ("TIMETICKS", "TimeTicks"), ("UNSIGNED32", "Unsigned32"),
   ("Counter", "Counter32"), ("Gauge", "Gauge32"),
   ("NetworkAddress", "IpAddress"), ("nullSpecific", "zeroDotZero"),
   ("ipRoutingTable", "ipRouteTable"),
   ("snmpEnableAuthTraps", "snmpEnableAuthenTraps")]

def stbTypeClassesGet (s : String) : String :=
  (alookup stbTypeClasses s).getD s

/-- The DG's (smaller) `typeClasses` rewrite table. -/
def dgTypeClasses : List (String × String) :=
  [("NetworkAddress", "IpAddress"), ("nullSpecific", "zeroDotZero"),
   ("ipRoutingTable", "ipRouteTable"),
   ("snmpEnableAuthTraps", "snmpEnableAuthenTraps")]

def dgTypeClassesGet (s : String) : String :=
  (alookup dgTypeClasses s).getD s

/-!  ## DG: OID and base-type resolution (`jsondoc.py` lines 171-206)  -/

/-- `JsonCodeGen.genNumericOid`, with a fuel bound standing in for the call
stack: the source has no cycle detection and recurses without bound on a
cyclic OID reference. -/
def genNumericOidF (tab : SymTab) : Nat → List OidEl → Except Err (List Nat)
  | 0, _ => Except.error Err.outOfFuel
  | _ + 1, [] => Except.ok []
  | fuel + 1, OidEl.num n :: rest =>
    (genNumericOidF tab fuel rest).map (fun tl => n :: tl)
  | fuel + 1, OidEl.ref parent mod :: rest =>
    if parent = "iso" then
      (genNumericOidF tab fuel rest).map (fun tl => 1 :: tl)
    else
      match alookup tab mod with
      | none => Except.error (Err.semantic ("no module " ++ mod ++ " in symbolTable"))
      | some mtab =>
        match alookup mtab parent with
        | none => Except.error (Err.semantic ("no symbol " ++ parent ++ " in module " ++ mod))
        | some entry =>
          match entry.oid with
          | none => Except.error (Err.keyErr "oid")
          | some poid =>
            match genNumericOidF tab fuel poid with
            | Except.error e => Except.error e
            | Except.ok head => (genNumericOidF tab fuel rest).map (fun tl => head ++ tl)

/-- Replace the stored subtype constraint of one symbol table entry,
modelling the in-place list mutation performed by `getBaseType`. -/
def updateSub (tab : SymTab) (mod symName : String) (newSub : SubC) : SymTab :=
  tab.map (fun mt =>
    if mt.1 = mod then
      (mt.1, mt.2.map (fun ne =>
        if ne.1 = symName then
          (ne.1, { ne.2 with syn := ne.2.syn.map (fun sp => (sp.1, newSub)) })
        else ne))
    else mt)

/-- `JsonCodeGen.getBaseType`, fuel-bounded.  Returns the resolved base
syntax pair together with the symbol table after the call: the source's
`symSubtype += baseSymSubtype` mutates the stored constraint list in place
when both the symbol's and its base's constraints are lists. -/
def getBaseTypeF (tab : SymTab) : Nat → String → String → Except Err (SynPair × SymTab)
  | 0, _, _ => Except.error Err.outOfFuel
  | fuel + 1, symName, mod =>
    match alookup tab mod with
    | none => Except.error (Err.semantic ("no module " ++ mod ++ " in symbolTable"))
    | some mtab =>
      match alookup mtab symName with
      | none => Except.error (Err.semantic ("no symbol " ++ symName ++ " in module " ++ mod))
      | some entry =>
        let sp := entry.syn.getD (("", ""), SubC.strv "")
        if sp.1.1 = "" then
          Except.error (Err.semantic ("unknown type for symbol " ++ symName))
        else if sp.1.1 ∈ baseTypes then
          Except.ok ((sp.1, sp.2), tab)
        else
          match getBaseTypeF tab fuel sp.1.1 sp.1.2 with
          | Except.error e => Except.error e
          | Except.ok ((baseSymType, baseSub), tab2) =>
            match baseSub, sp.2 with
            | SubC.lst bs, SubC.lst ss =>
              let merged := SubC.lst (ss ++ bs)
              Except.ok ((baseSymType, merged), updateSub tab2 mod symName merged)
            | SubC.lst _, _ => Except.ok ((baseSymType, baseSub), tab2)
            | _, _ => Except.ok ((baseSymType, sp.2), tab2)

/-!  ## STB: the symbol table builder state machine (`symtable.py`)  -/

/-- The mutable per-instance state of `SymtableCodeGen`.  `fakeidx` starts at
1000 at instance construction (class attribute). -/
structure SymState where
  rows : List String := []
  cols : List (String × String) := []
  postponed : List (String × (List String × STEntry)) := []
  parentOids : List String := []
  importMap : List (String × String) := []
  symsOrder : List String := []
  outk : List (String × STEntry) := []
  fakeidx : Nat := 1000
  moduleName : String := "DUMMY"
deriving Repr, DecidableEq

/-- A freshly constructed `SymtableCodeGen` instance. -/
def stInit : SymState := {}

def rowTokens : List String := ["MibTable", "MibTableRow", "MibTableColumn"]

/-- `SymtableCodeGen.allParentsExists`. -/
def allParentsExists (st : SymState) (parents : List String) : Bool :=
  parents.all (fun p =>
    (alookup st.outk p).isSome || (alookup st.importMap p).isSome ||
    baseTypes.contains p || rowTokens.contains p || st.rows.contains p)

/-- One pass of `regPostponedSyms` over the postponed map, in insertion
order: entries admitted earlier in the pass are visible (via `_out`) to the
admissibility checks of entries later in the same pass.  Returns the updated
state and the keys admitted by this pass. -/
def regPostponedPass (st : SymState) :
    List (String × (List String × STEntry)) → SymState × List String
  | [] => (st, [])
  | (sym, (parents, props)) :: rest =>
    if allParentsExists st parents then
      let st1 := { st with outk := odInsert st.outk sym props,
                           symsOrder := st.symsOrder ++ [sym] }
      let (st2, reged) := regPostponedPass st1 rest
      (st2, sym :: reged)
    else
      regPostponedPass st rest

/-- `SymtableCodeGen.regPostponedSyms`: a single pass, then removal of the
admitted keys from the postponed map. -/
def regPostponedSyms (st : SymState) : SymState :=
  let (st1, reged) := regPostponedPass st st.postponed
  { st1 with postponed := st1.postponed.filter (fun p => ¬ reged.contains p.1) }

/-- `SymtableCodeGen.regSym`. -/
def regSym (st : SymState) (symbol : String) (props : STEntry)
    (parents : List String) : Except Err SymState :=
  if (alookup st.outk symbol).isSome ∨ (alookup st.postponed symbol).isSome then
    Except.error (Err.semantic ("Duplicate symbol found: " ++ symbol))
  else if allParentsExists st parents then
    Except.ok (regPostponedSyms
      { st with outk := odInsert st.outk symbol props,
                symsOrder := st.symsOrder ++ [symbol] })
  else
    Except.ok { st with postponed := odInsert st.postponed symbol (parents, props) }

/-- `SymtableCodeGen.genOid`: rewrite raw OID elements, recording every
symbolic parent in `_parentOids` and resolving its module via the import
map. -/
def stbGenOid (st : SymState) (els : List RawOidEl) : SymState × List OidEl :=
  els.foldl (fun acc el =>
    match el with
    | RawOidEl.name s =>
      let parent := transOpers s
      let st1 := { acc.1 with parentOids := pySetAdd acc.1.parentOids parent }
      (st1, acc.2 ++ [OidEl.ref parent ((alookup st1.importMap parent).getD st1.moduleName)])
    | RawOidEl.num n => (acc.1, acc.2 ++ [OidEl.num n])
    | RawOidEl.pairEl _ n => (acc.1, acc.2 ++ [OidEl.num n])) (st, [])

/-- The loop body of `SymtableCodeGen.genIndex`: SMIv1 bare-type index
entries each allocate the next fake index and a `MibTableColumn` syntax
whose subtype slot carries the promoted type name. -/
def stbGenIndexLoop (st : SymState) :
    List String → SymState × (List Nat × List SynPair)
  | [] => (st, ([], []))
  | idxName :: rest =>
    if smiv1IdxTypes.contains idxName then
      let objType := transOpers (stbTypeClassesGet idxName)
      let st1 := { st with fakeidx := st.fakeidx + 1 }
      let (st2, fs) := stbGenIndexLoop st1 rest
      (st2, (st.fakeidx :: fs.1, (("MibTableColumn", ""), SubC.strv objType) :: fs.2))
    else
      stbGenIndexLoop st rest

/-- `SymtableCodeGen.genIndex`. -/
def stbGenIndex (st : SymState) (idxs : List String) :
    SymState × (String × List Nat × List SynPair) :=
  let (st1, fs) := stbGenIndexLoop st idxs
  (st1, ("pysmiFakeCol", fs.1, fs.2))

/-- The syntax subclause of an OBJECT-TYPE, as dispatched by the STB's
handlers table. -/
inductive SynClause where
  | simple (objType : String) (sub : SubC)
  | conceptualTable (rowRef : String)
  | row (name : String)
deriving Repr, DecidableEq

/-- `genSimpleSyntax`: promote via `typeClasses`, normalize, and attach the
defining module (empty for base types, else from the import map). -/
def stbGenSimpleSyn (st : SymState) (objType0 : String) (sub : SubC) : SynPair :=
  let objType := transOpers (stbTypeClassesGet objType0)
  let mod := if baseTypes.contains objType then ""
             else (alookup st.importMap objType).getD st.moduleName
  ((objType, mod), sub)

/-- Evaluate a syntax subclause, with the side effects of
`genConceptualTable` (row registration) and the row test of `genRow`. -/
def stbEvalSynClause (st : SymState) : SynClause → SymState × SynPair
  | SynClause.simple t sub => (st, stbGenSimpleSyn st t sub)
  | SynClause.conceptualTable rowRef =>
    ({ st with rows := pySetAdd st.rows (transOpers rowRef) },
     (("MibTable", ""), SubC.strv ""))
  | SynClause.row name0 =>
    let r := transOpers name0
    if st.rows.contains r then (st, (("MibTableRow", ""), SubC.strv ""))
    else (st, stbGenSimpleSyn st name0 (SubC.strv ""))

/-- Python truthiness of a DEFVAL payload (`if defval:` in
`genObjectType`). -/
def pyTruthyDefval : PyDefVal → Bool
  | PyDefVal.intv n => n ≠ 0
  | PyDefVal.strv s => s ≠ ""
  | PyDefVal.lstv l => l ≠ []

/-- The fake-column registration loop inside `genObjectType`. -/
def regFakeCols (namepart : String) (oid : List OidEl) :
    SymState → List (Nat × SynPair) → Except Err SymState
  | st, [] => Except.ok st
  | st, (fakeIdx, fakeSyn) :: rest =>
    let fakeName := namepart ++ toString fakeIdx
    match regSym st fakeName
        { kindv := "fakeColumn", oid := some (oid ++ [OidEl.num fakeIdx]),
          syn := some fakeSyn, origName := fakeName } [] with
    | Except.error e => Except.error e
    | Except.ok st1 => regFakeCols namepart oid st1 rest

/-- A declaration, carrying the clause payloads the STB handlers consume.
`typeDecl none` covers both an absent declaration and the SEQUENCE case,
which `genTypeDeclaration` skips. -/
inductive Decl where
  | valueDecl (origName : String) (oid : List RawOidEl)
  | typeDecl (origName : String) (decl : Option SynPair)
  | objectType (origName : String) (synCl : SynClause) (augmention : Option String)
      (index : Option (List String)) (defval : Option PyDefVal) (oid : List RawOidEl)
  | trapType (origName : String) (enterprise : List RawOidEl) (value : Nat)
deriving Repr, DecidableEq

/-- Process one declaration: `prepData` evaluates subclauses (syntax, INDEX,
OID) left to right before the clause handler runs, so their state effects
happen in that order. -/
def stbRunDecl (st : SymState) (d : Decl) : Except Err SymState :=
  match d with
  | Decl.valueDecl origName roid =>
    let (st1, oid) := stbGenOid st roid
    regSym st1 (transOpers origName)
      { kindv := "MibIdentifier", oid := some oid, origName := origName } []
  | Decl.typeDecl origName odecl =>
    match odecl with
    | none => Except.ok st
    | some decl =>
      regSym st (transOpers origName)
        { kindv := "TypeDeclaration", syn := some decl, origName := origName }
        [decl.1.1]
  | Decl.objectType origName synCl aug index dv roid =>
    let (st1, synPair) := stbEvalSynClause st synCl
    let (st2, idxTriple) :=
      match index with
      | some idxs => let (s, t) := stbGenIndex st1 idxs; (s, some t)
      | none => (st1, none)
    let (st3, oid) := stbGenOid st2 roid
    let pysmiName := transOpers origName
    let props : STEntry :=
      { kindv := "ObjectType", oid := some oid, syn := some synPair,
        origName := origName,
        defval := match dv with
          | some v => if pyTruthyDefval v then some v else none
          | none => none }
    let parents := [synPair.1.1] ++ (match aug with
      | some a => [transOpers a]
      | none => [])
    match idxTriple with
    | some (namepart, fakeIndexes, fakeSyns) =>
      if fakeIndexes ≠ [] then
        match regFakeCols namepart oid st3 (fakeIndexes.zip fakeSyns) with
        | Except.error e => Except.error e
        | Except.ok st4 => regSym st4 pysmiName props parents
      else regSym st3 pysmiName props parents
    | none => regSym st3 pysmiName props parents
  | Decl.trapType origName rawEnterprise value =>
    let (st1, enterprise) := stbGenOid st rawEnterprise
    regSym st1 (transOpers origName)
      { kindv := "NotificationType",
        oid := some (enterprise ++ [OidEl.num 0, OidEl.num value]),
        origName := origName } []

/-- The per-run state reset at the top of `SymtableCodeGen.genCode`: every
container is cleared or replaced, but `fakeidx` is not touched. -/
def stbReset (st : SymState) (moduleName : String)
    (importMap : List (String × String)) : SymState :=
  { rows := [], cols := [], postponed := [], parentOids := [],
    importMap := importMap, symsOrder := [], outk := [],
    fakeidx := st.fakeidx, moduleName := moduleName }

/-- `SymtableCodeGen.genCode`: reset, process the declarations, then fail on
leftover postponed symbols or unresolvable OID parents.  The import map is
the one `genImports` would build (import rewriting itself lives in the
abstract base class, outside the embedded sources, and is taken as input
here). -/
def stbGenCode (st0 : SymState) (moduleName : String)
    (importMap : List (String × String)) (decls : List Decl) :
    Except Err SymState :=
  match (stbReset st0 moduleName importMap) |> (fun st => decls.foldlM stbRunDecl st) with
  | Except.error e => Except.error e
  | Except.ok st1 =>
    if st1.postponed.length ≠ 0 then
      Except.error (Err.semantic ("Unknown parents for symbols: " ++
        String.intercalate ", " (st1.postponed.map Prod.fst)))
    else
      match st1.parentOids.find? (fun p =>
          (alookup st1.outk p).isNone && (alookup st1.importMap p).isNone) with
      | some p => Except.error (Err.semantic ("Unknown parent symbol: " ++ p))
      | none => Except.ok st1

/-!  ## DG: the JSON document generator (`jsondoc.py`)  -/

/-- A Python dict key as used by `genTableIndex`: either a string or the
builtin class `object`, which the source uses as a bare key (and later as a
value) in `genFakeSyms`. -/
inductive PyKey where
  | strk (s : String)
  | objBuiltin
deriving Repr, DecidableEq

/-- One entry of the `indices` list: `{module: ..., object: ...}`.  The
object slot holds a `PyKey` because the SMIv1 path stores the builtin
`object` class there. -/
structure IdxEntry where
  modulev : String
  objectv : PyKey
deriving Repr, DecidableEq

/-- Flat JSON-ish values appearing in the DG's default-value dicts. -/
inductive JVal0 where
  | jstr (s : String)
  | jint (n : Int)
  | jmap (m : List (String × Int))
deriving Repr, DecidableEq

abbrev DocRec0 := List (String × JVal0)

/-- Result of `JsonCodeGen.genDefVal`: the empty dict, the usual
`{default: ...}` wrapper, or the bare dict returned by the Bits branch. -/
inductive DgDefValRes where
  | empty
  | wrapped (d : DocRec0)
  | bare (d : DocRec0)
deriving Repr, DecidableEq

/-- The source compares `defvalType` — the pair returned by `getBaseType` —
against the string OctetString; in Python a tuple never equals a str, so
the comparison `defvalType != 'OctetString'` is constantly true. -/
def tupleNeqStr (_dt : SynPair) (_s : String) : Bool := true

/-- Python `dict(x)` applied to a subtype slot: a pair list builds a dict,
the empty string builds the empty dict, any other string raises. -/
def subToDict : SubC → Except Err (List (String × Int))
  | SubC.lst xs => Except.ok (pyDict xs)
  | SubC.strv s => if s = "" then Except.ok [] else Except.error (Err.pyError "cannot convert string to dict")

/-- The bit-collection loop of the Bits branch of `genDefVal`: each missing
bit name raises SemanticError. -/
def collectBits (bits : List (String × Int)) (objname : String) :
    List String → Except Err (List (String × Int))
  | [] => Except.ok []
  | b :: rest =>
    match alookup bits b with
    | none => Except.error (Err.semantic ("no such bit as " ++ b ++ " for symbol " ++ objname))
    | some v => (collectBits bits objname rest).map (fun tl => (b, v) :: tl)

/-- The Bits arm at the end of `genDefVal`'s symbol branch, plus the final
unknown-type failure. -/
def dgDefValBits (dt : SynPair) (objname : String) (defval : PyDefVal) :
    Except Err DgDefValRes :=
  if dt.1.1 = "Bits" then
    match subToDict dt.2 with
    | Except.error e => Except.error e
    | Except.ok bits =>
      match defval with
      | PyDefVal.intv _ => Except.error (Err.pyError "int object is not iterable")
      | PyDefVal.lstv names =>
        match collectBits bits objname names with
        | Except.error e => Except.error e
        | Except.ok collected =>
          Except.ok (DgDefValRes.bare
            [("value", JVal0.jmap (pyDict collected)), ("format", JVal0.jstr "bits")])
      | PyDefVal.strv s =>
        -- iterating a Python string yields its characters
        match collectBits bits objname (s.toList.map (fun c => String.mk [c])) with
        | Except.error e => Except.error e
        | Except.ok collected =>
          Except.ok (DgDefValRes.bare
            [("value", JVal0.jmap (pyDict collected)), ("format", JVal0.jstr "bits")])
  else
    Except.error (Err.semantic ("unknown type for defval of symbol " ++ objname))

/-- The enumeration arm of `genDefVal`'s symbol branch, falling through to
the Bits arm. -/
def dgDefValRest (dt : SynPair) (objname : String) (defval : PyDefVal) :
    Except Err DgDefValRes :=
  if dt.1.1 = "Integer32" ∨ dt.1.1 = "Integer" then
    match dt.2 with
    | SubC.lst items =>
      match defval with
      | PyDefVal.strv s =>
        if (alookup (pyDict items) s).isSome then
          Except.ok (DgDefValRes.wrapped
            [("value", JVal0.jstr s), ("format", JVal0.jstr "enum")])
        else dgDefValBits dt objname defval
      | PyDefVal.lstv _ => Except.error (Err.pyError "unhashable type in membership test")
      | PyDefVal.intv _ => dgDefValBits dt objname defval
    | _ => dgDefValBits dt objname defval
  else dgDefValBits dt objname defval

/-- The symbol branch (`else` arm) of `genDefVal`: an oid-valued default
when the base type is ObjectIdentifier and the name resolves, else the
enumeration / Bits arms. -/
def dgDefValSymbol (tab : SymTab) (fuel : Nat) (moduleName : String)
    (importMap : List (String × String)) (dt : SynPair) (objname : String)
    (defval : PyDefVal) : Except Err DgDefValRes :=
  if dt.1.1 = "ObjectIdentifier" then
    match defval with
    | PyDefVal.lstv _ => Except.error (Err.pyError "unhashable type in membership test")
    | PyDefVal.intv _ => Except.error (Err.pyError "unreachable: numbers take the decimal branch")
    | PyDefVal.strv s =>
      match alookup tab moduleName with
      | none => Except.error (Err.keyErr ("no module " ++ moduleName))
      | some mtab =>
        if (alookup mtab s).isSome ∨ (alookup importMap s).isSome then
          -- try: resolve; any failure is re-raised as SemanticError
          let mod := (alookup importMap s).getD moduleName
          match (alookup tab mod).bind (fun mt => alookup mt s) with
          | none => Except.error (Err.semantic ("no symbol " ++ s ++ " in module " ++ mod))
          | some entry =>
            match entry.oid with
            | none => Except.error (Err.semantic ("no symbol " ++ s ++ " in module " ++ mod))
            | some o =>
              match genNumericOidF tab fuel o with
              | Except.error _ => Except.error (Err.semantic ("no symbol " ++ s ++ " in module " ++ mod))
              | Except.ok nums =>
                Except.ok (DgDefValRes.wrapped
                  [("value", JVal0.jstr (pyTupleStr nums)), ("format", JVal0.jstr "oid")])
        else dgDefValRest dt objname defval
  else dgDefValRest dt objname defval

/-- `JsonCodeGen.genDefVal` with an object name supplied (the call made by
`genObjectType`).  `data = none` models an absent or falsy DEFVAL clause. -/
def dgGenDefVal (tab : SymTab) (fuel : Nat) (moduleName : String)
    (importMap : List (String × String)) (data : Option PyDefVal)
    (objname : String) : Except Err DgDefValRes :=
  match data with
  | none => Except.ok DgDefValRes.empty
  | some defval =>
    match getBaseTypeF tab fuel objname moduleName with
    | Except.error e => Except.error e
    | Except.ok (dt, tab2) =>
      match defval with
      | PyDefVal.intv n =>
        Except.ok (DgDefValRes.wrapped
          [("value", JVal0.jint n), ("format", JVal0.jstr "decimal")])
      | PyDefVal.strv s =>
        if isHexS s then
          if dt.1.1 = "Integer32" ∨ dt.1.1 = "Integer" then
            match parseRadix 16 (pySlice s 1 2) with
            | none => Except.error (Err.pyError "invalid literal for int with base 16")
            | some v =>
              Except.ok (DgDefValRes.wrapped
                [("value", JVal0.jstr (toString v)), ("format", JVal0.jstr "hex")])
          else
            Except.ok (DgDefValRes.wrapped
              [("value", JVal0.jstr (pySlice s 1 2)), ("format", JVal0.jstr "hex")])
        else if isBinaryS s then
          let binval := pySlice s 1 2
          if dt.1.1 = "Integer32" ∨ dt.1.1 = "Integer" then
            match (if binval = "" then some 0 else parseRadix 2 binval) with
            | none => Except.error (Err.pyError "invalid literal for int with base 2")
            | some v =>
              Except.ok (DgDefValRes.wrapped
                [("value", JVal0.jstr (toString v)), ("format", JVal0.jstr "bin")])
          else
            match (if binval = "" then some "" else (parseRadix 2 binval).map toHexStr) with
            | none => Except.error (Err.pyError "invalid literal for int with base 2")
            | some hx =>
              Except.ok (DgDefValRes.wrapped
                [("value", JVal0.jstr hx), ("format", JVal0.jstr "hex")])
        else if isQuotedS s then
          if pySlice s 1 1 = "" ∧ tupleNeqStr dt "OctetString" then
            Except.ok DgDefValRes.empty
          else
            Except.ok (DgDefValRes.wrapped
              [("value", JVal0.jstr (pySlice s 1 1)), ("format", JVal0.jstr "string")])
        else dgDefValSymbol tab2 fuel moduleName importMap dt objname (PyDefVal.strv s)
      | PyDefVal.lstv bits =>
        dgDefValSymbol tab2 fuel moduleName importMap dt objname (PyDefVal.lstv bits)

/-- `genFakeSyms` inside `JsonCodeGen.genTableIndex`: it computes the fake
column name `pysmiFakeCol<n>` and then drops it, returning a dict whose keys
are the string `module` and the Python builtin class `object`. -/
def dgGenFakeSymsDict (moduleName : String) (fakeidx : Nat) (idxType : String) :
    List (PyKey × String) :=
  let _fakeSymName := "pysmiFakeCol" ++ toString fakeidx
  let objType := transOpersD (dgTypeClassesGet idxType)
  [(PyKey.strk "module", moduleName), (PyKey.objBuiltin, objType)]

/-- `importMap.get(k, moduleName)` where the key may be the builtin
`object` class (never present among the string keys). -/
def pyKeyImportGet (importMap : List (String × String)) (moduleName : String) :
    PyKey → String
  | PyKey.strk s => (alookup importMap s).getD moduleName
  | PyKey.objBuiltin => moduleName

/-- The loop of `JsonCodeGen.genTableIndex`.  For an SMIv1 bare-type index,
tuple-unpacking the dict returned by `genFakeSyms` yields its two keys, so
`idxName` is rebound to the builtin `object` class, which then lands in the
`object` slot of the emitted index entry.  Returns
((idxStrlist, fakeStrlist, fakeSyms), final fakeidx). -/
def dgGenTableIndexLoop (moduleName : String) (importMap : List (String × String)) :
    Nat → List String → (List IdxEntry × List PyKey × List PyKey) × Nat
  | fakeidx, [] => (([], [], []), fakeidx)
  | fakeidx, idxName :: rest =>
    if smiv1IdxTypes.contains idxName then
      let keys := (dgGenFakeSymsDict moduleName fakeidx idxName).map Prod.fst
      let fakeSymStr := keys.headD (PyKey.strk "")
      let idxKey := (keys.drop 1).headD (PyKey.strk "")
      let entry : IdxEntry := ⟨pyKeyImportGet importMap moduleName idxKey, idxKey⟩
      let (triple, fi) := dgGenTableIndexLoop moduleName importMap (fakeidx + 1) rest
      ((entry :: triple.1, fakeSymStr :: triple.2.1, idxKey :: triple.2.2), fi)
    else
      let entry : IdxEntry := ⟨(alookup importMap idxName).getD moduleName, PyKey.strk idxName⟩
      let (triple, fi) := dgGenTableIndexLoop moduleName importMap fakeidx rest
      ((entry :: triple.1, triple.2.1, triple.2.2), fi)

/-- `JsonCodeGen.genTableIndex` (the INDEX handler). -/
def dgGenTableIndex (moduleName : String) (importMap : List (String × String))
    (fakeidx : Nat) (indexes : List String) :
    (List IdxEntry × List PyKey × List PyKey) × Nat :=
  dgGenTableIndexLoop moduleName importMap fakeidx indexes

/-- The object-type document record, with one optional field per key the
source conditionally sets. -/
structure ObjTypeRec where
  name : String
  oid : String
  cls : String
  synv : Option DocRec0 := none
  default : Option DgDefValRes := none
  units : Option String := none
  maxaccess : Option String := none
  indices : Option (List IdxEntry) := none
  augmention : Option (String × String × String) := none
  description : Option String := none
deriving Repr, DecidableEq

/-- `JsonCodeGen.genObjectType`, building the record for one OBJECT-TYPE.
The syntax subpart arrives as the (label, dict) pair produced by the syntax
handlers; `index` is the triple produced by `genTableIndex` for this row's
INDEX clause, if any. -/
def dgGenObjectType (tab : SymTab) (fuel : Nat) (moduleName : String)
    (importMap : List (String × String)) (genTexts : Bool) (name0 : String)
    (synPair : String × DocRec0) (units maxaccess description : String)
    (augmention : Option String)
    (index : Option (List IdxEntry × List PyKey × List PyKey))
    (dv : Option PyDefVal) (oid : String × String) : Except Err ObjTypeRec :=
  let name := transOpersD name0
  let idxStrlist := (index.getD ([], [], [])).1
  match dgGenDefVal tab fuel moduleName importMap dv name with
  | Except.error e => Except.error e
  | Except.ok defval =>
    Except.ok
      { name := name
        oid := oid.1
        cls := "objecttype"
        synv := if synPair.2 ≠ [] then some synPair.2 else none
        default := match defval with
          | DgDefValRes.empty => none
          | d => some d
        units := if units ≠ "" then some units else none
        maxaccess := if maxaccess ≠ "" then some maxaccess else none
        indices := if idxStrlist ≠ [] then some idxStrlist else none
        augmention := match augmention with
          | some a => some (name, moduleName, transOpersD a)
          | none => none
        description := if genTexts ∧ description ≠ "" then some description else none }

/-- One `{module, object}` reference in a notification's objects list. -/
structure ModObj where
  modulev : String
  objectv : String
deriving Repr, DecidableEq

/-- The trap-type document record. -/
structure TrapRec where
  name : String
  oid : String
  cls : String
  objects : Option (List ModObj) := none
  description : Option String := none
deriving Repr, DecidableEq

/-- `JsonCodeGen.genTrapType`: the oid string is
`enterpriseStr ++ "0." ++ str(value)` — the source inserts no separator
between the resolved enterprise OID string and the `0` arc. -/
def dgGenTrapType (moduleName : String) (genTexts : Bool) (name0 : String)
    (enterprise : String × String) (varbls : List String)
    (description : String) (value : Nat) : TrapRec :=
  let name := transOpersD name0
  { name := name
    oid := enterprise.1 ++ "0." ++ toString value
    cls := "notificationtype"
    objects := if varbls ≠ [] then
        some (varbls.map (fun o => ⟨moduleName, transOpersD o⟩))
      else none
    description := if genTexts ∧ description ≠ "" then some description else none }

/-- `JsonCodeGen.genOid`: rewrite raw elements then resolve to a dotted
string, also returning the last symbolic parent seen. -/
def dgGenOid (tab : SymTab) (importMap : List (String × String))
    (moduleName : String) (fuel : Nat) (els : List RawOidEl) :
    Except Err (String × String) :=
  let start : List OidEl × String := ([], "")
  let acc := els.foldl (fun acc el =>
    match el with
    | RawOidEl.name s =>
      let parent := transOpersD s
      (acc.1 ++ [OidEl.ref parent ((alookup importMap parent).getD moduleName)], parent)
    | RawOidEl.num n => (acc.1 ++ [OidEl.num n], acc.2)
    | RawOidEl.pairEl _ n => (acc.1 ++ [OidEl.num n], acc.2)) start
  match genNumericOidF tab fuel acc.1 with
  | Except.error e => Except.error e
  | Except.ok nums =>
    Except.ok (String.intercalate "." (nums.map toString), acc.2)

/-- `JsonCodeGen.regSym` (jsondoc.py lines 165-169): duplicate check against
the seen-set, exempting imported names; then the record is stored,
overwriting any previous record under that key. -/
def dgRegSym (seen : List String) (importMap : List (String × String))
    (outk : List (String × α)) (symbol : String) (outDict : α) :
    Except Err (List String × List (String × α)) :=
  if symbol ∈ seen ∧ alookup importMap symbol = none then
    Except.error (Err.semantic ("Duplicate symbol found: " ++ symbol))
  else
    Except.ok (pySetAdd seen symbol, odInsert outk symbol outDict)

/-- The emission loop at the end of `JsonCodeGen.genCode`: every name of
`_symtable_order` must have a record in `_out`, else CodegenError; records
are appended to the document in order. -/
def dgEmit (outk : List (String × α)) :
    List String → List (String × α) → Except Err (List (String × α))
  | [], acc => Except.ok acc
  | s :: rest, acc =>
    match alookup outk s with
    | none => Except.error (Err.codegen ("No generated code for symbol " ++ s))
    | some v => dgEmit outk rest (odInsert acc s v)

/-- The tail of `JsonCodeGen.genCode`: the document starts with the
`imports` record, then the `_symtable_order` emission loop, then the
optional trailing meta record when comments were supplied. -/
def dgAssemble (importsRec : α) (outk : List (String × α)) (order : List String)
    (metaRec : Option α) : Except Err (List (String × α)) :=
  match dgEmit outk order [("imports", importsRec)] with
  | Except.error e => Except.error e
  | Except.ok d =>
    Except.ok (match metaRec with
      | some m => odInsert d "meta" m
      | none => d)

/-!  ## Concrete instances and spec-side definitions used by the claims  -/

/-- Modelled from the spec (amended §4.4 wording): the subtype merge rule as
observed in `getBaseType` — a list constraint of the base is kept, prefixed
by the child's constraints when those are also a list; a non-list base
constraint leaves the child's constraint in place. -/
def mergeSub (child par : SubC) : SubC :=
  match par with
  | SubC.lst bs =>
    match child with
    | SubC.lst cs => SubC.lst (cs ++ bs)
    | _ => SubC.lst bs
  | _ => child

/-- A two-step textual-convention chain: `t1` refers to `t2`, which refers
to the base type Integer; the two subtype slots are parameters. -/
def mkTab (s1 s2 : SubC) : SymTab :=
  [("M", [("t1", { kindv := "TypeDeclaration",
                   syn := some (("t2", "M"), s1), origName := "t1" }),
          ("t2", { kindv := "TypeDeclaration",
                   syn := some (("Integer", ""), s2), origName := "t2" })])]

/-- The symbol table after `getBaseType t1 M` on `mkTab`: mutated only when
both subtype slots are lists. -/
def tabAfterMerge (s1 s2 : SubC) : SymTab :=
  match s2, s1 with
  | SubC.lst bs, SubC.lst cs =>
    updateSub (mkTab s1 s2) "M" "t1" (SubC.lst (cs ++ bs))
  | _, _ => mkTab s1 s2

/-- A symbol table with a cyclic OID reference: `a`'s oid points at `a`. -/
def cycOidTab : SymTab :=
  [("M", [("a", { kindv := "MibIdentifier",
                  oid := some [OidEl.ref "a" "M"], origName := "a" })])]

/-- A symbol table with a cyclic TypeDeclaration chain: `t` refers to `t`. -/
def cycTypeTab : SymTab :=
  [("M", [("t", { kindv := "TypeDeclaration",
                  syn := some (("t", "M"), SubC.strv ""), origName := "t" })])]

/-- An acyclic table used to show successful termination. -/
def acycOidTab : SymTab :=
  [("M", [("b", { kindv := "MibIdentifier",
                  oid := some [OidEl.num 1, OidEl.num 3], origName := "b" })])]

/-- The claim that a cyclic OID reference makes `genNumericOid` raise
SemanticError (at some recursion depth). -/
def oidCycleRaisesSemantic : Prop :=
  ∃ fuel msg, genNumericOidF cycOidTab fuel [OidEl.ref "a" "M"] =
    Except.error (Err.semantic msg)

/-- The claim that a cyclic syntax chain makes `getBaseType` raise
SemanticError (at some recursion depth). -/
def typeCycleRaisesSemantic : Prop :=
  ∃ fuel msg, getBaseTypeF cycTypeTab fuel "t" "M" =
    Except.error (Err.semantic msg)

/-- Symbol table providing `snmp` at 1.3.6.1.2.1.11 for the TRAP-TYPE
scenario. -/
def snmpTab : SymTab :=
  [("M", [("snmp",
    { kindv := "MibIdentifier",
      oid := some [OidEl.num 1, OidEl.num 3, OidEl.num 6, OidEl.num 1,
                   OidEl.num 2, OidEl.num 1, OidEl.num 11],
      origName := "snmp" })])]

/-- Declarations for the TRAP-TYPE scenario, run through the STB. -/
def declsTrap : List Decl :=
  [Decl.valueDecl "snmp"
     [RawOidEl.num 1, RawOidEl.num 3, RawOidEl.num 6, RawOidEl.num 1,
      RawOidEl.num 2, RawOidEl.num 1, RawOidEl.num 11],
   Decl.trapType "coldStart" [RawOidEl.name "snmp"] 0]

/-- Import map carrying `iso`, as the constant imports always do. -/
def c1imap : List (String × String) := [("iso", "SNMPv2-SMI")]

/-- A conceptual table plus a row whose INDEX names the bare type
IpAddress. -/
def declsFake : List Decl :=
  [Decl.objectType "fooTable" (SynClause.conceptualTable "FooEntry") none none none
     [RawOidEl.name "iso", RawOidEl.num 9],
   Decl.objectType "fooEntry" (SynClause.row "FooEntry") none (some ["IPADDRESS"]) none
     [RawOidEl.name "fooTable", RawOidEl.num 1]]

/-- The symbol table entry the STB registers for the promoted index
column. -/
def fakeColExpected : STEntry :=
  { kindv := "fakeColumn",
    oid := some [OidEl.ref "fooTable" "M", OidEl.num 1, OidEl.num 1000],
    syn := some (("MibTableColumn", ""), SubC.strv "IpAddress"),
    origName := "pysmiFakeCol1000" }

/-- Child declared before its parent (two declarations). -/
def declsTwo : List Decl :=
  [Decl.typeDecl "c" (some (("p", "M"), SubC.strv "")),
   Decl.typeDecl "p" (some (("OctetString", ""), SubC.strv ""))]

/-- Three-step chain postponed in reverse dependency order: grandchild,
child, parent. -/
def declsChainRev : List Decl :=
  [Decl.typeDecl "gc" (some (("c", "M"), SubC.strv "")),
   Decl.typeDecl "c" (some (("p", "M"), SubC.strv "")),
   Decl.typeDecl "p" (some (("OctetString", ""), SubC.strv ""))]

/-- The same chain postponed in forward dependency order: child, grandchild,
parent. -/
def declsChainFwd : List Decl :=
  [Decl.typeDecl "c" (some (("p", "M"), SubC.strv "")),
   Decl.typeDecl "gc" (some (("c", "M"), SubC.strv "")),
   Decl.typeDecl "p" (some (("OctetString", ""), SubC.strv ""))]

/-- The same three declarations ordered parent first: the well-ordered
presentation of `declsChainRev`. -/
def declsChainSorted : List Decl :=
  [Decl.typeDecl "p" (some (("OctetString", ""), SubC.strv "")),
   Decl.typeDecl "c" (some (("p", "M"), SubC.strv "")),
   Decl.typeDecl "gc" (some (("c", "M"), SubC.strv ""))]

/-- A module with one object whose resolved base type is OctetString. -/
def tabC3 : SymTab :=
  [("M", [("s", { kindv := "ObjectType",
                  syn := some (("OctetString", ""), SubC.strv ""),
                  origName := "s" })])]

/-- Number of SMIv1 bare-type entries in an INDEX clause — the number of
fake columns `genIndex` allocates. -/
def countSmiv1 : List String → Nat
  | [] => 0
  | i :: rest => (if smiv1IdxTypes.contains i then 1 else 0) + countSmiv1 rest

/-!  ## Helper lemmas  -/

theorem alookup_append (l1 l2 : List (String × α)) (k : String) :
    alookup (l1 ++ l2) k =
      (match alookup l1 k with
       | some v => some v
       | none => alookup l2 k) := by
  induction l1 with
  | nil => simp [alookup]
  | cons p rest ih =>
    obtain ⟨k', v'⟩ := p
    by_cases h : k' = k <;> simp [alookup, h, ih]

theorem alookup_none_of_not_mem (l : List (String × α)) (k : String)
    (h : k ∉ l.map Prod.fst) : alookup l k = none := by
  induction l with
  | nil => rfl
  | cons p rest ih =>
    obtain ⟨k', v'⟩ := p
    simp only [List.map_cons, List.mem_cons] at h
    push_neg at h
    have hk : k' ≠ k := fun he => h.1 he.symm
    simp [alookup, hk, ih h.2]

theorem odInsert_eq_append (l : List (String × α)) (k : String) (v : α)
    (h : alookup l k = none) : odInsert l k v = l ++ [(k, v)] := by
  induction l with
  | nil => rfl
  | cons p rest ih =>
    obtain ⟨k', v'⟩ := p
    by_cases hk : k' = k
    · simp [alookup, hk] at h
    · simp only [alookup, if_neg hk] at h
      simp [odInsert, hk, ih h]

theorem alookup_odInsert_self (l : List (String × α)) (k : String) (v : α) :
    alookup (odInsert l k v) k = some v := by
  induction l with
  | nil => simp [odInsert, alookup]
  | cons p rest ih =>
    obtain ⟨k', v'⟩ := p
    by_cases h : k' = k <;> simp [odInsert, alookup, h, ih]

theorem cycOid_outOfFuel (fuel : Nat) :
    genNumericOidF cycOidTab fuel [OidEl.ref "a" "M"] =
      Except.error Err.outOfFuel := by
  induction fuel with
  | zero => rfl
  | succ n ih =>
    simp only [cycOidTab] at ih
    simp [genNumericOidF, cycOidTab, alookup, ih]

theorem cycType_outOfFuel (fuel : Nat) :
    getBaseTypeF cycTypeTab fuel "t" "M" = Except.error Err.outOfFuel := by
  induction fuel with
  | zero => rfl
  | succ n ih =>
    simp only [cycTypeTab] at ih
    simp [getBaseTypeF, cycTypeTab, alookup, baseTypes, ih]

theorem isQuoted_head {q : String} (h : isQuotedS q = true) :
    ∃ cs, q.toList = dquote :: cs := by
  unfold isQuotedS at h
  cases hc : q.toList with
  | nil => rw [hc] at h; simp at h
  | cons c cs =>
    rw [hc] at h
    cases hl : (c :: cs).getLast? with
    | none => simp [List.getLast?] at hl
    | some d =>
      rw [hl] at h
      simp only [Bool.and_eq_true, decide_eq_true_eq] at h
      exact ⟨cs, by rw [h.2]⟩

theorem quoted_not_hex {q : String} (h : isQuotedS q = true) :
    isHexS q = false := by
  obtain ⟨cs, hc⟩ := isQuoted_head h
  unfold isHexS
  rw [hc]
  have hne : (decide (dquote = squote)) = false := by decide
  simp [hne]

theorem quoted_not_binary {q : String} (h : isQuotedS q = true) :
    isBinaryS q = false := by
  obtain ⟨cs, hc⟩ := isQuoted_head h
  unfold isBinaryS
  rw [hc]
  have hne : (decide (dquote = squote)) = false := by decide
  simp [hne]

/-!  ## Claims C5, C6, C7  -/

/-- Claim C5 (amended): `genNumericOid` and `getBaseType` contain no cycle
detection.  On a cyclic OID reference or a cyclic TypeDeclaration chain the
recursion exceeds every depth bound (so the source never returns and never
raises SemanticError there), while acyclic references resolve normally. -/
theorem resolution_cycles_diverge :
    (∀ fuel, genNumericOidF cycOidTab fuel [OidEl.ref "a" "M"] =
      Except.error Err.outOfFuel) ∧
    (∀ fuel, getBaseTypeF cycTypeTab fuel "t" "M" =
      Except.error Err.outOfFuel) ∧
    genNumericOidF acycOidTab 5 [OidEl.ref "b" "M", OidEl.num 6] =
      Except.ok [1, 3, 6] :=
  ⟨cycOid_outOfFuel, cycType_outOfFuel, rfl⟩

/-- Claim C5 (counterexample): on the cyclic inputs, no recursion depth ever
produces the SemanticError the claim promises — the functions simply fail to
terminate. -/
theorem resolution_cycles_no_semantic_error :
    ¬ oidCycleRaisesSemantic ∧ ¬ typeCycleRaisesSemantic := by
  constructor
  · rintro ⟨fuel, msg, h⟩
    rw [cycOid_outOfFuel] at h
    simp at h
  · rintro ⟨fuel, msg, h⟩
    rw [cycType_outOfFuel] at h
    simp at h

/-- Claim C6 (amended): on a two-step chain, `getBaseType` returns the first
base type reached together with subtype constraints merged by `mergeSub`:
child list followed by parent list when both are lists; the parent's list
when only the parent's constraint is a list; otherwise the child's
constraint. -/
theorem getBaseType_merge (s1 s2 : SubC) :
    (getBaseTypeF (mkTab s1 s2) 3 "t1" "M").map Prod.fst =
      Except.ok ((("Integer", ""), mergeSub s1 s2)) := by
  cases s1 <;> cases s2 <;> rfl

/-- Claim C6 (counterexample): with a non-list child constraint over a list
parent constraint, the result is the parent's list, not the child's
constraint as the claim states. -/
theorem getBaseType_merge_counterexample :
    (getBaseTypeF (mkTab (SubC.strv "") (SubC.lst [("a", 1)])) 3 "t1" "M").map
        (fun r => r.1.2) = Except.ok (SubC.lst [("a", 1)]) ∧
    SubC.lst [("a", 1)] ≠ SubC.strv "" := ⟨rfl, by decide⟩

/-- Claim C7 (amended): resolving a two-step chain leaves the symbol table
unchanged except when both the symbol's and its base's constraints are
lists, in which case the symbol's stored list is extended in place by the
base's list. -/
theorem getBaseType_mutation (s1 s2 : SubC) :
    (getBaseTypeF (mkTab s1 s2) 3 "t1" "M").map Prod.snd =
      Except.ok (tabAfterMerge s1 s2) ∧
    (s1.isList = false ∨ s2.isList = false →
      tabAfterMerge s1 s2 = mkTab s1 s2) := by
  constructor
  · cases s1 <;> cases s2 <;> rfl
  · intro h
    cases s1 <;> cases s2 <;> first
      | rfl
      | simp [SubC.isList] at h

/-- Claim C7 (witness): a run with a non-list child constraint returns the
table unchanged. -/
theorem getBaseType_mutation_witness :
    (getBaseTypeF (mkTab (SubC.strv "x") (SubC.lst [("a", 1)])) 3 "t1" "M").map
        Prod.snd =
      Except.ok (mkTab (SubC.strv "x") (SubC.lst [("a", 1)])) := by
  have h := getBaseType_mutation (SubC.strv "x") (SubC.lst [("a", 1)])
  exact h.2 (Or.inl rfl) ▸ h.1

/-- Claim C7 (counterexample): when both constraints are lists, the run of
`getBaseType` mutates the stored entry — the table differs before and
after. -/
theorem getBaseType_mutation_counterexample :
    (getBaseTypeF (mkTab (SubC.lst [("a", 1)]) (SubC.lst [("b", 2)])) 3 "t1" "M").map
        Prod.snd =
      Except.ok (mkTab (SubC.lst [("a", 1), ("b", 2)]) (SubC.lst [("b", 2)])) ∧
    mkTab (SubC.lst [("a", 1), ("b", 2)]) (SubC.lst [("b", 2)]) ≠
      mkTab (SubC.lst [("a", 1)]) (SubC.lst [("b", 2)]) := ⟨rfl, by decide⟩

/-!  ## Claims C1, C2, C3, C4, C8  -/

/-- Claim C1 (evaluation at the failing input): the STB registers
`pysmiFakeCol1000` with kind fakeColumn, OID `rowOid ++ (1000,)` and
IpAddress syntax as claimed, but the DG's `genTableIndex` puts the Python
builtin class `object` — not the string `pysmiFakeCol1000` — into the
`object` slot of the emitted index entry, and the object-type record's
indices list therefore never contains the fake column name. -/
theorem fake_column_stb_vs_dg :
    (stbGenCode stInit "M" c1imap declsFake).map
        (fun st => (alookup st.outk "pysmiFakeCol1000", st.symsOrder)) =
      Except.ok (some fakeColExpected,
        ["fooTable", "pysmiFakeCol1000", "fooEntry"]) ∧
    dgGenTableIndex "M" [] 1000 ["IPADDRESS"] =
      (([⟨"M", PyKey.objBuiltin⟩], [PyKey.strk "module"], [PyKey.objBuiltin]), 1001) ∧
    (dgGenObjectType [] 1 "M" [] false "fooEntry" ("MibTableRow", []) "" "" "" none
        (some (dgGenTableIndex "M" [] 1000 ["IPADDRESS"]).1) none
        ("1.3.9.1", "fooTable")).map (fun r => r.indices) =
      Except.ok (some [⟨"M", PyKey.objBuiltin⟩]) ∧
    PyKey.objBuiltin ≠ PyKey.strk "pysmiFakeCol1000" :=
  ⟨rfl, rfl, rfl, by decide⟩

/-- Claim C2 (evaluation at the failing input): the DG resolves the
enterprise of `coldStart TRAP-TYPE ENTERPRISE snmp ::= 0` to the string
1.3.6.1.2.1.11 and then emits the oid 1.3.6.1.2.1.110.0 (no dot between
the enterprise and the 0 arc), while the STB's own OID tuple for the same
trap resolves to 1.3.6.1.2.1.11.0.0 as the claim states. -/
theorem trapType_oid_strings :
    (dgGenOid snmpTab [] "M" 9 [RawOidEl.name "snmp"]).map Prod.fst =
      Except.ok "1.3.6.1.2.1.11" ∧
    (dgGenTrapType "M" false "coldStart" ("1.3.6.1.2.1.11", "snmp") [] "" 0).oid =
      "1.3.6.1.2.1.110.0" ∧
    "1.3.6.1.2.1.110.0" ≠ "1.3.6.1.2.1.11.0.0" ∧
    (stbGenCode stInit "M" [] declsTrap).map
        (fun st => (alookup st.outk "coldStart").map (fun e => e.oid)) =
      Except.ok (some (some [OidEl.ref "snmp" "M", OidEl.num 0, OidEl.num 0])) ∧
    genNumericOidF snmpTab 9 [OidEl.ref "snmp" "M", OidEl.num 0, OidEl.num 0] =
      Except.ok [1, 3, 6, 1, 2, 1, 11, 0, 0] :=
  ⟨rfl, rfl, by decide, rfl, rfl⟩

/-- Claim C3 (amended): for a quoted-string DEFVAL the DG emits no default
whenever the unquoted payload is empty — regardless of the base type,
because the source compares the base-type pair itself (not its type name)
against the string OctetString — and otherwise emits
`{value: <unquoted>, format: string}`. -/
theorem defval_quoted_string (tab : SymTab) (fuel : Nat) (moduleName : String)
    (importMap : List (String × String)) (objname q : String)
    (r : SynPair × SymTab)
    (hq : isQuotedS q = true)
    (hbt : getBaseTypeF tab fuel objname moduleName = Except.ok r) :
    dgGenDefVal tab fuel moduleName importMap (some (PyDefVal.strv q)) objname =
      Except.ok (if pySlice q 1 1 = "" then DgDefValRes.empty
        else DgDefValRes.wrapped
          [("value", JVal0.jstr (pySlice q 1 1)), ("format", JVal0.jstr "string")]) := by
  have hh : isHexS q = false := quoted_not_hex hq
  have hb : isBinaryS q = false := quoted_not_binary hq
  unfold dgGenDefVal
  rw [hbt]
  obtain ⟨dt, tab2⟩ := r
  simp only [hh, hb, hq, tupleNeqStr, and_true, Bool.false_eq_true, if_false,
    if_true, and_self]
  split <;> rfl

/-- Claim C3 (witness): concrete empty quoted string over an OctetString
base type — no default is emitted. -/
theorem defval_quoted_string_witness :
    dgGenDefVal tabC3 3 "M" [] (some (PyDefVal.strv "\"\"")) "s" =
      Except.ok DgDefValRes.empty := by
  have h := defval_quoted_string tabC3 3 "M" [] "s" "\"\""
    ((("OctetString", ""), SubC.strv ""), tabC3) (by decide) rfl
  simpa using h

/-- Claim C3 (counterexample): the empty quoted string on an object whose
base type is OctetString yields no default, not
`{value: "", format: string}` as the claim states. -/
theorem defval_empty_octets_counterexample :
    dgGenDefVal tabC3 3 "M" [] (some (PyDefVal.strv "\"\"")) "s" =
      Except.ok DgDefValRes.empty ∧
    (getBaseTypeF tabC3 3 "s" "M").map (fun r => r.1.1.1) =
      Except.ok "OctetString" ∧
    DgDefValRes.empty ≠ DgDefValRes.wrapped
      [("value", JVal0.jstr ""), ("format", JVal0.jstr "string")] :=
  ⟨rfl, rfl, by decide⟩

/-- Claim C4 (amended): admission triggers a single pass over the postponed
map in insertion order, so an entry admitted during the pass wakes only
entries appearing later in the map: the two-declaration child-before-parent
case yields order [parent, child] with nothing postponed, and a chain whose
postponed entries sit in forward dependency order resolves fully in one
pass. -/
theorem stb_postponed_wakeup :
    (stbGenCode stInit "M" [] declsTwo).map
        (fun st => (st.symsOrder, st.postponed)) =
      Except.ok (["p", "c"], []) ∧
    (stbGenCode stInit "M" [] declsChainFwd).map
        (fun st => (st.symsOrder, st.postponed)) =
      Except.ok (["p", "c", "gc"], []) :=
  ⟨rfl, rfl⟩

/-- Claim C4 (counterexample): the chain grandchild-child-parent is
resolvable (its parent-first reordering compiles to order [p, c, gc]), yet
the single wake-up pass misses the grandchild — whose postponed entry
precedes the child's — and `genCode` raises SemanticError. -/
theorem stb_postponed_wakeup_counterexample :
    stbGenCode stInit "M" [] declsChainRev =
      Except.error (Err.semantic "Unknown parents for symbols: gc") ∧
    (stbGenCode stInit "M" [] declsChainSorted).map (fun st => st.symsOrder) =
      Except.ok ["p", "c", "gc"] :=
  ⟨rfl, rfl⟩

/-- Claim C8 (amended): `fakeidx` is 1000 at instance construction, the
per-run reset at the top of `genCode` does not restore it, and the INDEX
handler assigns consecutive indices from the instance's current counter in
declaration order. -/
theorem stb_fakeidx_not_reset :
    stInit.fakeidx = 1000 ∧
    (∀ st moduleName importMap,
      (stbReset st moduleName importMap).fakeidx = st.fakeidx) ∧
    (∀ idxs : List String, ∀ st,
      (stbGenIndexLoop st idxs).2.1 =
        List.range' st.fakeidx (countSmiv1 idxs) ∧
      (stbGenIndexLoop st idxs).1.fakeidx = st.fakeidx + countSmiv1 idxs) := by
  refine ⟨rfl, fun _ _ _ => rfl, ?_⟩
  intro idxs
  induction idxs with
  | nil => intro st; exact ⟨rfl, rfl⟩
  | cons i rest ih =>
    intro st
    have hr : ∀ s n, List.range' s (n + 1) = s :: List.range' (s + 1) n :=
      fun _ _ => rfl
    by_cases h : smiv1IdxTypes.contains i
    · have h1 := (ih { st with fakeidx := st.fakeidx + 1 }).1
      have h2 := (ih { st with fakeidx := st.fakeidx + 1 }).2
      constructor
      · simp only [stbGenIndexLoop, countSmiv1, h, if_true, h1,
          Nat.add_comm 1 (countSmiv1 rest)]
        rw [hr]
      · simp only [stbGenIndexLoop, countSmiv1, h, if_true, h2]
        omega
    · have h1 := (ih st).1
      have h2 := (ih st).2
      constructor
      · simp only [stbGenIndexLoop, countSmiv1, h, if_false, h1,
          Bool.false_eq_true, Nat.zero_add]
      · simp only [stbGenIndexLoop, countSmiv1, h, if_false, h2,
          Bool.false_eq_true, Nat.zero_add]

/-- Claim C8 (counterexample): running `genCode` twice on the same instance
with the identical input yields different outputs — the first run registers
`pysmiFakeCol1000`, the second continues at the carried-over counter and
registers `pysmiFakeCol1001` instead. -/
theorem stb_fakeidx_second_run_counterexample :
    (stbGenCode stInit "M" c1imap declsFake).map
        (fun st => ((alookup st.outk "pysmiFakeCol1000").isSome, st.fakeidx)) =
      Except.ok (true, 1001) ∧
    ((stbGenCode stInit "M" c1imap declsFake).bind
        (fun st1 => stbGenCode st1 "M" c1imap declsFake)).map
        (fun st => ((alookup st.outk "pysmiFakeCol1000").isSome,
                    (alookup st.outk "pysmiFakeCol1001").isSome)) =
      Except.ok (false, true) :=
  ⟨rfl, rfl⟩

/-!  ## Claims C9 and C10  -/

theorem dgEmit_ok {α : Type} (outk : List (String × α)) :
    ∀ (order : List String) (acc : List (String × α)),
      order.Nodup → (∀ s ∈ order, (alookup outk s).isSome) →
      (∀ s ∈ order, alookup acc s = none) →
      ∃ d, dgEmit outk order acc = Except.ok d ∧
        d.map Prod.fst = acc.map Prod.fst ++ order := by
  intro order
  induction order with
  | nil => intro acc _ _ _; exact ⟨acc, rfl, by simp⟩
  | cons s rest ih =>
    intro acc hnd hpres hacc
    have hs := hpres s (by simp)
    obtain ⟨v, hv⟩ := Option.isSome_iff_exists.mp hs
    have haccs : alookup acc s = none := hacc s (by simp)
    have hins : odInsert acc s v = acc ++ [(s, v)] := odInsert_eq_append acc s v haccs
    have hnotrest : s ∉ rest := (List.nodup_cons.mp hnd).1
    have hstep : ∀ t ∈ rest, alookup (acc ++ [(s, v)]) t = none := by
      intro t ht
      rw [alookup_append]
      have h1 : alookup acc t = none := hacc t (by simp [ht])
      have h2 : alookup [(s, v)] t = none := by
        have : s ≠ t := fun he => hnotrest (he ▸ ht)
        simp [alookup, this]
      rw [h1, h2]
    obtain ⟨d, hd, hkeys⟩ := ih (acc ++ [(s, v)]) (List.nodup_cons.mp hnd).2
      (fun t ht => hpres t (by simp [ht])) hstep
    refine ⟨d, ?_, ?_⟩
    · simp only [dgEmit, hv, hins]
      exact hd
    · rw [hkeys]
      simp

theorem dgEmit_missing {α : Type} (outk : List (String × α)) :
    ∀ (order : List String) (acc : List (String × α)) (s : String),
      s ∈ order → alookup outk s = none →
      ∃ m, dgEmit outk order acc = Except.error (Err.codegen m) := by
  intro order
  induction order with
  | nil => intro acc s h; exact absurd h (List.not_mem_nil s)
  | cons s0 rest ih =>
    intro acc s hmem hnone
    cases hl : alookup outk s0 with
    | none =>
      exact ⟨"No generated code for symbol " ++ s0, by simp [dgEmit, hl]⟩
    | some v =>
      have hs : s ∈ rest := by
        rcases List.mem_cons.mp hmem with he | hr
        · rw [he] at hnone; rw [hnone] at hl; cases hl
        · exact hr
      obtain ⟨m, hm⟩ := ih (odInsert acc s0 v) s hs hnone
      exact ⟨m, by simp [dgEmit, hl, hm]⟩

/-- Claim C9: when `genCode` returns, the document's keys are `imports`
followed by exactly the names of `_symtable_order` in order (with a trailing
`meta` key when comments are supplied); and when some name of
`_symtable_order` has no record in `_out`, `genCode` raises CodegenError
instead of returning. -/
theorem dg_genCode_emission {α : Type} (importsRec : α) (outk : List (String × α))
    (order : List String) (metaRec : Option α) :
    ((order.Nodup ∧ "imports" ∉ order ∧ "meta" ∉ order ∧
        (∀ s ∈ order, (alookup outk s).isSome)) →
      ∃ d, dgAssemble importsRec outk order metaRec = Except.ok d ∧
        d.map Prod.fst = "imports" :: order ++
          (match metaRec with | some _ => ["meta"] | none => [])) ∧
    (∀ s ∈ order, alookup outk s = none →
      ∃ m, dgAssemble importsRec outk order metaRec =
        Except.error (Err.codegen m)) := by
  constructor
  · rintro ⟨hnd, himp, hmeta, hall⟩
    have hacc : ∀ s ∈ order, alookup [("imports", importsRec)] s = none := by
      intro s hsm
      have : "imports" ≠ s := fun he => himp (he ▸ hsm)
      simp [alookup, this]
    obtain ⟨d, hd, hkeys⟩ := dgEmit_ok outk order [("imports", importsRec)] hnd hall hacc
    cases metaRec with
    | none => exact ⟨d, by simp [dgAssemble, hd], by simpa using hkeys⟩
    | some m =>
      have hdm : alookup d "meta" = none := by
        apply alookup_none_of_not_mem
        rw [hkeys]
        simp only [List.map_cons, List.map_nil, List.singleton_append,
          List.mem_cons]
        rintro (h | h)
        · exact absurd h (by decide)
        · exact hmeta h
      refine ⟨d ++ [("meta", m)], ?_, ?_⟩
      · simp [dgAssemble, hd, odInsert_eq_append d "meta" m hdm]
      · rw [List.map_append, hkeys]
        simp
  · intro s hsm hnone
    obtain ⟨m, hm⟩ := dgEmit_missing outk order [("imports", importsRec)] s hsm hnone
    exact ⟨m, by simp [dgAssemble, hm]⟩

/-- Claim C9 (witness): a concrete well-formed emission and a concrete
missing-record failure. -/
theorem dg_genCode_emission_witness :
    (∃ d, dgAssemble (0 : Nat) [("a", 1), ("b", 2)] ["a", "b"] (some 3) =
        Except.ok d ∧
      d.map Prod.fst = "imports" :: ["a", "b"] ++ ["meta"]) ∧
    (∃ m, dgAssemble (0 : Nat) [("a", 1)] ["a", "z"] none =
      Except.error (Err.codegen m)) := by
  constructor
  · exact (dg_genCode_emission 0 [("a", 1), ("b", 2)] ["a", "b"] (some 3)).1
      ⟨by decide, by decide, by decide, by decide⟩
  · exact (dg_genCode_emission 0 [("a", 1)] ["a", "z"] none).2 "z"
      (by simp) rfl

/-- Claim C10: the DG's `regSym` raises SemanticError exactly when the
normalized name was already seen and is not among the imported names; a
name that collides with an imported symbol does not raise, and the new
record replaces whatever was stored under that key. -/
theorem dg_regSym_duplicate {α : Type} (seen : List String)
    (importMap : List (String × String)) (outk : List (String × α))
    (s : String) (d : α) :
    ((∃ e, dgRegSym seen importMap outk s d = Except.error e) ↔
      (s ∈ seen ∧ alookup importMap s = none)) ∧
    (alookup importMap s ≠ none →
      ∃ res, dgRegSym seen importMap outk s d = Except.ok res ∧
        alookup res.2 s = some d) := by
  constructor
  · constructor
    · rintro ⟨e, he⟩
      unfold dgRegSym at he
      by_cases h : s ∈ seen ∧ alookup importMap s = none
      · exact h
      · rw [if_neg h] at he; cases he
    · intro h
      unfold dgRegSym
      rw [if_pos h]
      exact ⟨_, rfl⟩
  · intro h
    unfold dgRegSym
    rw [if_neg (fun hc => h hc.2)]
    exact ⟨_, rfl, alookup_odInsert_self outk s d⟩

/-- Claim C10 (witness): a local record whose name equals an imported
symbol's name is accepted and replaces the earlier record under that key. -/
theorem dg_regSym_duplicate_witness :
    ∃ res, dgRegSym ["x"] [("x", "A-MIB")] [("x", (0 : Nat))] "x" 1 =
        Except.ok res ∧
      alookup res.2 "x" = some 1 :=
  (dg_regSym_duplicate ["x"] [("x", "A-MIB")] [("x", 0)] "x" 1).2 (by decide)

/-- Claim C5 (witness): the divergence statements instantiated at a concrete
recursion depth. -/
theorem resolution_cycles_diverge_witness :
    genNumericOidF cycOidTab 7 [OidEl.ref "a" "M"] = Except.error Err.outOfFuel ∧
    getBaseTypeF cycTypeTab 7 "t" "M" = Except.error Err.outOfFuel :=
  ⟨resolution_cycles_diverge.1 7, resolution_cycles_diverge.2.1 7⟩

/-- Claim C6 (witness): the merge law instantiated at two concrete list
constraints. -/
theorem getBaseType_merge_witness :
    (getBaseTypeF (mkTab (SubC.lst [("a", 1)]) (SubC.lst [("b", 2)])) 3 "t1" "M").map
        Prod.fst =
      Except.ok ((("Integer", ""),
        mergeSub (SubC.lst [("a", 1)]) (SubC.lst [("b", 2)]))) :=
  getBaseType_merge (SubC.lst [("a", 1)]) (SubC.lst [("b", 2)])

/-- Claim C8 (witness): the fake-index law instantiated at a concrete INDEX
clause and a fresh instance. -/
theorem stb_fakeidx_not_reset_witness :
    (stbGenIndexLoop stInit ["IPADDRESS", "ifIndex"]).2.1 =
      List.range' stInit.fakeidx (countSmiv1 ["IPADDRESS", "ifIndex"]) :=
  (stb_fakeidx_not_reset.2.2 ["IPADDRESS", "ifIndex"] stInit).1
